import Mathlib

/-!
Verification of the deployment lifecycle and image-freshness engine of
ecs-control-center, shallowly embedded from the Python source
(`backend/utils/ecr.py`, `backend/services/deployment_history.py`,
`backend/routes/deployments.py`).

Conventions of the embedding:
* Python dict `.get` of possibly-absent keys becomes `Option`; an absent key
  and an explicit `None` value are conflated (the source never distinguishes
  them on the paths modelled here).
* Python string truthiness (`if s:`) is `s ≠ ""`; truthiness of an optional
  string is "present and non-empty".
* `str.split(sep)` is modelled on `List Char` (`splitColon`, `splitSub`),
  keeping Python's semantics for a non-empty separator.
* `datetime.utcnow()` timestamps are an abstract `Nat` clock passed in.
* `imagePushedAt` values may be of two incomparable runtime kinds
  (`datetime` objects vs the integer default `0`); CPython's `sorted` raises
  `TypeError` exactly when both kinds occur in the key list, which the source
  catches, leaving the list in its original order.  `sortCandidates` models
  this pair of behaviours.
-/

namespace ECSCC

/-! ## Python `str.split(":")` on character lists -/

def splitColon : List Char → List (List Char)
  | [] => [[]]
  | c :: cs =>
    if c = ':' then [] :: splitColon cs
    else
      match splitColon cs with
      | [] => [[c]]
      | p :: ps => (c :: p) :: ps

theorem splitColon_ne_nil (l : List Char) : splitColon l ≠ [] := by
  induction l with
  | nil => simp [splitColon]
  | cons c cs ih =>
    simp only [splitColon]
    split
    · simp
    · split
      · simp
      · simp

theorem splitColon_no_colon (l : List Char) (h : ':' ∉ l) : splitColon l = [l] := by
  induction l with
  | nil => rfl
  | cons c cs ih =>
    simp only [List.mem_cons, not_or] at h
    simp only [splitColon]
    rw [if_neg (fun hc => h.1 hc.symm)]
    rw [ih h.2]

theorem splitColon_append (b t : List Char) (hb : ':' ∉ b) :
    splitColon (b ++ ':' :: t) = b :: splitColon t := by
  induction b with
  | nil => simp [splitColon]
  | cons c cs ih =>
    simp only [List.mem_cons, not_or] at hb
    simp only [List.cons_append, splitColon]
    rw [if_neg (fun hc => hb.1 hc.symm)]
    simp only [List.append_eq]
    rw [ih hb.2]

/-- `uri.split(":")[0]` -/
def baseOf (s : String) : String := String.mk ((splitColon s.data).headD [])

/-- `uri.split(":")[-1]` -/
def tagOf (s : String) : String := String.mk ((splitColon s.data).getLastD [])

theorem mk_data (s : String) : String.mk s.data = s := rfl

theorem refUri_data (b t : String) : (b ++ ":" ++ t).data = b.data ++ ':' :: t.data := by
  simp [String.data_append]

theorem baseOf_ref (b t : String) (hb : ':' ∉ b.data) :
    baseOf (b ++ ":" ++ t) = b := by
  unfold baseOf
  rw [refUri_data, splitColon_append _ _ hb]
  rfl

theorem tagOf_ref (b t : String) (hb : ':' ∉ b.data) (ht : ':' ∉ t.data) :
    tagOf (b ++ ":" ++ t) = t := by
  unfold tagOf
  rw [refUri_data, splitColon_append _ _ hb, splitColon_no_colon _ ht]
  rfl

theorem refUri_ne_empty (b t : String) : b ++ ":" ++ t ≠ "" := by
  intro h
  have : (b ++ ":" ++ t).data = ("" : String).data := by rw [h]
  rw [refUri_data] at this
  simp at this

theorem refUri_inj (b t t' : String) : (b ++ ":" ++ t = b ++ ":" ++ t') ↔ t = t' := by
  constructor
  · intro h
    have : (b ++ ":" ++ t).data = (b ++ ":" ++ t').data := by rw [h]
    rw [refUri_data, refUri_data] at this
    have := List.append_cancel_left this
    exact String.ext (by simpa using this)
  · intro h; rw [h]

/-! ## Image Freshness Resolver (`backend/utils/ecr.py`, `unified_image_comparison`) -/

/-- Runtime kind of an `imagePushedAt` value: a `datetime` from the registry
    response, or the integer default `0` supplied by `.get("imagePushedAt", 0)`
    (also any other numeric value).  Comparing the two kinds raises `TypeError`
    in Python. -/
inductive PushedAt where
  | pint (n : Int)
  | pdate (n : Int)
deriving Repr, DecidableEq

structure RepoImage where
  imageDigest : Option String
  imageTags : Option (List String)
  imagePushedAt : Option PushedAt
deriving Repr, DecidableEq, Inhabited

/-- `x.get("imagePushedAt", 0)` -/
def keyOf (img : RepoImage) : PushedAt := img.imagePushedAt.getD (.pint 0)

def pval : PushedAt → Int
  | .pint n => n
  | .pdate n => n

def isIntKind : PushedAt → Bool
  | .pint _ => true
  | .pdate _ => false

/-- CPython's `sorted` raises `TypeError` on the key list iff it holds both an
    int-kind and a datetime-kind key (any mixed list forces at least one
    cross-kind comparison). -/
def mixedKinds (l : List RepoImage) : Bool :=
  (l.any fun i => isIntKind (keyOf i)) && (l.any fun i => !isIntKind (keyOf i))

/-- One step of a stable descending insertion: place `x` after every element
    whose key is ≥ its own, before the first strictly smaller one. -/
def insDesc (x : RepoImage) : List RepoImage → List RepoImage
  | [] => [x]
  | y :: ys => if pval (keyOf x) > pval (keyOf y) then x :: y :: ys else y :: insDesc x ys

/-- Stable descending sort by `imagePushedAt`, the semantics of
    `sorted(images_info, key=..., reverse=True)` on comparable keys. -/
def sortDescStable (l : List RepoImage) : List RepoImage :=
  l.foldl (fun acc x => insDesc x acc) []

/-- The defensively-sorted candidate list: the inner `try/except` of the source
    keeps the original order when the sort raises (mixed key kinds). -/
def sortCandidates (l : List RepoImage) : List RepoImage :=
  if mixedKinds l then l else sortDescStable l

/-- Whether the Python `sorted` call inside `unified_image_comparison` raises
    (and is swallowed by the inner `except`). -/
def pySortRaises (l : List RepoImage) : Bool := mixedKinds l

/-- Truthiness of an optional Python string. -/
def truthyS : Option String → Bool
  | none => false
  | some s => s ≠ ""

/-- Body of `unified_image_comparison` after the empty-input guard and the
    defensive sort (lines 51–82 of `backend/utils/ecr.py`), taking the
    (possibly) sorted candidate list. -/
def compareBody (uri : String) (images : List RepoImage) (rtd : Option String) :
    Bool × String :=
  let base := baseOf uri
  let tag := tagOf uri
  if tag = "latest" then
    let latestD := images.head?.bind (·.imageDigest)
    if truthyS rtd then
      let has :=
        match latestD with
        | some d => if d = "" then false else decide (rtd.getD "" ≠ d)
        | none => false
      (has, base ++ ":latest")
    else
      let currentD := (images.find? fun img => (img.imageTags.getD []).contains "latest").bind
        (·.imageDigest)
      if truthyS currentD && truthyS latestD then
        (decide (currentD.getD "" ≠ latestD.getD ""), base ++ ":latest")
      else
        (false, base ++ ":latest")
  else
    match images.head? with
    | none => (false, uri)
    | some latestImage =>
      match latestImage.imageTags.getD [] with
      | [] => (false, uri)
      | t :: _ => (decide (uri ≠ base ++ ":" ++ t), base ++ ":" ++ t)

/-- `unified_image_comparison(current_image_uri, images_info, running_task_digest)`
    (`backend/utils/ecr.py` lines 34–85). -/
def unified_image_comparison (uri : String) (images : List RepoImage)
    (rtd : Option String) : Bool × String :=
  if uri = "" || images.isEmpty then (false, uri)
  else compareBody uri (sortCandidates images) rtd

/-! ## Deployment Ledger (`backend/services/deployment_history.py`) -/

/-- One stored ledger entry; field set mirrors exactly the dict built by
    `save_deployment_history` (plus the keys later mutated by
    `update_deployment_status`; `original_deployment_id` is carried to show it
    is never written by `save_deployment_history`). -/
structure DRecord where
  deployment_id : String
  timestamp : Nat
  cluster : Option String
  service : Option String
  deployment_type : Option String
  status : String
  message : Option String
  service_arn : Option String
  new_task_definition : Option String
  stopped_tasks : Nat
  user : String
  last_checked_at : Option Nat
  next_refresh_at : Option Nat
  status_error : Option String
  running_count : Option Nat
  desired_count : Option Nat
  pending_count : Option Nat
  original_deployment_id : Option String
deriving Repr, DecidableEq, Inhabited

/-- The `deployment_data` dict handed to `save_deployment_history`; every key
    it reads, plus `original_deployment_id` (supplied by the rollback route). -/
structure DeployData where
  deployment_id : Option String := none
  cluster : Option String := none
  service : Option String := none
  deployment_type : Option String := none
  message : Option String := none
  service_arn : Option String := none
  new_task_definition : Option String := none
  stopped_tasks : Option Nat := none
  user : Option String := none
  original_deployment_id : Option String := none
deriving Repr, DecidableEq, Inhabited

/-- The `history_entry` dict of `save_deployment_history` (lines 18–33).
    Note: it copies a fixed key set; `original_deployment_id` from the input
    is not among them. -/
def mkHistoryEntry (now : Nat) (d : DeployData) : DRecord :=
  { deployment_id := d.deployment_id.getD ("deploy-" ++ toString now)
    timestamp := now
    cluster := d.cluster
    service := d.service
    deployment_type := d.deployment_type
    status := "IN_PROGRESS"
    message := d.message
    service_arn := d.service_arn
    new_task_definition := d.new_task_definition
    stopped_tasks := d.stopped_tasks.getD 0
    user := d.user.getD "unknown"
    last_checked_at := none
    next_refresh_at := some now
    status_error := none
    running_count := none
    desired_count := none
    pending_count := none
    original_deployment_id := none }

/-- `save_deployment_history(deployment_data)` over an explicit history list:
    prepend the entry, then `pop()` the last element if the length exceeds 100.
    Returns the assigned id and the new history. -/
def save_deployment_history (now : Nat) (d : DeployData) (h : List DRecord) :
    String × List DRecord :=
  let entry := mkHistoryEntry now d
  let h' := entry :: h
  (entry.deployment_id, if h'.length > 100 then h'.dropLast else h')

/-- `next((d for d in deployment_history if d.get("deployment_id") == id), None)` -/
def findDeployment (id : String) (h : List DRecord) : Option DRecord :=
  h.find? fun r => r.deployment_id == id

/-- Folding a batch of `record` calls into an initially empty ledger. -/
def recordAll (now : Nat) (ds : List DeployData) : List DRecord :=
  ds.foldl (fun h d => (save_deployment_history now d h).2) []

/-! ## Deployment Reconciler (`update_deployment_status`, lines 45–147) -/

structure EcsDeployment where
  status : Option String
  rolloutState : Option String
deriving Repr, DecidableEq

structure ServiceInfo where
  desiredCount : Nat
  runningCount : Nat
  pendingCount : Nat
  deployments : List EcsDeployment
deriving Repr, DecidableEq

/-- Outcome of one reconciliation poll, as observed by
    `update_deployment_status`:
    * `describeError` — `ecs.describe_services` raised (inner handler,
      lines 72–81);
    * `notFound`      — the call succeeded with an empty `services` list
      (lines 82–89);
    * `ok`            — the call succeeded with a service description;
    * `catchAllError` — any other exception inside the outer `try` (for
      example session construction), handled by lines 140–147. -/
inductive PollOutcome where
  | describeError (msg : String)
  | notFound
  | ok (svc : ServiceInfo)
  | catchAllError (msg : String)
deriving Repr, DecidableEq

/-- Count-based status inference of the reconciler (lines 113–119 and
    121–127; both occurrences are textually identical). -/
def inferFromCounts (running desired pending : Nat) : String :=
  if running = 0 then "PENDING"
  else if running < desired || pending > 0 then "IN_PROGRESS"
  else "COMPLETED"

/-- The status computed by a successful poll (lines 97–127): the explicit
    rollout state of the `PRIMARY` deployment object when it decides, the
    count inference otherwise. -/
def okNewStatus (svc : ServiceInfo) : String :=
  match svc.deployments.find? fun d => d.status == some "PRIMARY" with
  | some p =>
    let ds := p.rolloutState.getD "UNKNOWN"
    if ds = "FAILED" then "FAILED"
    else if ds = "COMPLETED" then "COMPLETED"
    else if ds = "IN_PROGRESS" ∨ ds = "PENDING" ∨ ds = "STARTED" then "IN_PROGRESS"
    else inferFromCounts svc.runningCount svc.desiredCount svc.pendingCount
  | none => inferFromCounts svc.runningCount svc.desiredCount svc.pendingCount

/-- `update_deployment_status` acting on the (already located) record.
    The leading guard is the source's `if not cluster or not service: return`. -/
def update_deployment_status (now : Nat) (r : DRecord) (poll : PollOutcome) : DRecord :=
  if !truthyS r.cluster || !truthyS r.service then r
  else
    match poll with
    | .describeError msg =>
      let r' := if r.status ≠ "COMPLETED"
        then { r with status := "UNKNOWN", status_error := some msg } else r
      { r' with last_checked_at := some now, next_refresh_at := some now }
    | .notFound =>
      let r' := if r.status ≠ "COMPLETED" ∧ r.status ≠ "FAILED"
        then { r with status := "UNKNOWN" } else r
      { r' with status_error := some "Service not found",
                last_checked_at := some now, next_refresh_at := some now }
    | .catchAllError msg =>
      let r' := if r.status ≠ "COMPLETED" then { r with status := "UNKNOWN" } else r
      { r' with status_error := some msg,
                last_checked_at := some now, next_refresh_at := some now }
    | .ok svc =>
      let newStatus := okNewStatus svc
      let r' := { r with
        status := newStatus
        running_count := some svc.runningCount
        desired_count := some svc.desiredCount
        pending_count := some svc.pendingCount
        last_checked_at := some now }
      if newStatus = "IN_PROGRESS" ∨ newStatus = "PENDING" ∨ newStatus = "UNKNOWN"
      then { r' with next_refresh_at := some now }
      else { r' with next_refresh_at := none }

/-! ## Standalone deployment-status query
    (`backend/routes/deployments.py`, `_get_deployment_status_impl`,
    lines 175–179) -/

def statusFromCountsImpl (running desired pending : Nat) : String :=
  if running < desired || pending > 0 then "IN_PROGRESS"
  else if running = 0 then "PENDING"
  else "COMPLETED"

/-! ## Rollback use case (`backend/routes/deployments.py`, `rollback_deployment`,
    lines 312–393) -/

inductive RbErr where
  | deploymentNotFound    -- 404 "Deployment not found"
  | invalidData           -- 400 "Invalid deployment data"
  | serviceNotFound       -- 404 "Service not found"
  | noFamily              -- 400 "Could not determine task definition family"
  | noPreviousVersion     -- 400 "No previous version available for rollback"
deriving Repr, DecidableEq

/-- The JSON body returned on success. -/
structure RbResp where
  deployment_id : String
  service_arn : String
  rollback_to : String
  original_deployment_id : String
deriving Repr, DecidableEq

/-- `rollback_deployment(deployment_id)`.  Collaborator replies are inputs:
    `svcFound` is whether `describe_services` returned a non-empty `services`
    list, `family` the task definition's `family` field, `revisions` the
    `taskDefinitionArns` of `list_task_definitions(status="ACTIVE",
    sort="DESC")` (most recent first), `serviceArn` the ARN echoed by
    `update_service`.  Returns the outcome and the (possibly extended)
    ledger. -/
def rollback_deployment (deployment_id : String) (h : List DRecord)
    (svcFound : Bool) (family : Option String) (revisions : List String)
    (serviceArn : String) (now : Nat) :
    Except RbErr RbResp × List DRecord :=
  match findDeployment deployment_id h with
  | none => (.error .deploymentNotFound, h)
  | some target =>
    if !truthyS target.cluster || !truthyS target.service then
      (.error .invalidData, h)
    else
      let cluster := target.cluster.getD ""
      let service := target.service.getD ""
      if !svcFound then (.error .serviceNotFound, h)
      else if !truthyS family then (.error .noFamily, h)
      else
        match revisions with
        | [] => (.error .noPreviousVersion, h)
        | [_] => (.error .noPreviousVersion, h)
        | _ :: rollbackTd :: _ =>
          let data : DeployData :=
            { cluster := some cluster
              service := some service
              message := some ("Rollback to deployment " ++ deployment_id)
              deployment_type := some "rollback"
              new_task_definition := some rollbackTd
              service_arn := some serviceArn
              deployment_id := some ("rollback-" ++ cluster ++ "-" ++ service ++ "-" ++ toString now)
              original_deployment_id := some deployment_id }
          let h' := (save_deployment_history now data h).2
          (.ok { deployment_id := ("rollback-" ++ cluster ++ "-" ++ service ++ "-" ++ toString now)
                 service_arn := serviceArn
                 rollback_to := rollbackTd
                 original_deployment_id := deployment_id }, h')

/-! ## Python `str.split(sep)` for a multi-character separator, and
    `extract_ecr_info` (`backend/utils/ecr.py`, lines 6–31) -/

/-- Leftmost occurrence of `sep` in `l`: the part before it and the part
    after it. -/
def findSplit (sep : List Char) : List Char → Option (List Char × List Char)
  | [] => if sep = [] then some ([], []) else none
  | c :: cs =>
    if sep.isPrefixOf (c :: cs) then some ([], (c :: cs).drop sep.length)
    else
      match findSplit sep cs with
      | none => none
      | some (p, q) => some (c :: p, q)

def splitSubAux (sep : List Char) : Nat → List Char → List (List Char)
  | 0, l => [l]
  | fuel + 1, l =>
    match findSplit sep l with
    | none => [l]
    | some (pre, post) => pre :: splitSubAux sep fuel post

/-- Python `s.split(sep)` for a non-empty separator. -/
def splitSub (sep l : List Char) : List (List Char) :=
  splitSubAux sep (l.length + 1) l

/-- `needle.isPrefixOf l || ...` scanned along `l`: Python `in` on strings. -/
def isInfixCL (needle : List Char) : List Char → Bool
  | [] => needle.isEmpty
  | c :: cs => needle.isPrefixOf (c :: cs) || isInfixCL needle cs

/-- Python `needle in haystack` (substring test). -/
def strContains (needle haystack : String) : Bool :=
  isInfixCL needle.data haystack.data

/-- `extract_ecr_info(image_uri) -> (ecr_region, account_id, repo_name)`. -/
def extract_ecr_info (uri : String) :
    Option String × Option String × Option String :=
  if uri = "" then (none, none, none)
  else if !strContains ".dkr.ecr." uri then (none, none, none)
  else if strContains ".amazonaws.com/" uri then
    let parts := splitSub ".amazonaws.com/".data uri.data
    let ecrPart := parts.headD []
    let repoAndTag := (parts.drop 1).headD []
    if isInfixCL ".dkr.ecr.".data ecrPart then
      let p2 := splitSub ".dkr.ecr.".data ecrPart
      ( some (String.mk ((p2.drop 1).headD []))
      , some (String.mk (p2.headD []))
      , some (String.mk ((splitColon repoAndTag).headD [])) )
    else (none, none, none)
  else (none, none, none)

/-! ## Deploy-new-image use case (`backend/routes/deployments.py`,
    `deploy_new_image`, lines 25–148) -/

/-- A container definition: its name, its image string (`""` when the `image`
    key is absent), and an opaque remainder standing for every other key of
    the container dict (carried verbatim by `c.copy()`). -/
structure Container where
  name : String
  image : String
  rest : String
deriving Repr, DecidableEq

/-- The fields of the current task definition that `deploy_new_image` reads.
    `Option` fields model keys whose value may be absent/`None`. -/
structure TaskDef where
  family : String
  containerDefinitions : List Container
  cpu : Option String := none
  memory : Option String := none
  networkMode : Option String := none
  requiresCompatibilities : Option (List String) := none
  executionRoleArn : Option String := none
  taskRoleArn : Option String := none
  volumes : Option (List String) := none
  placementConstraints : Option (List String) := none
  proxyConfiguration : Option String := none
  inferenceAccelerators : Option (List String) := none
  ephemeralStorage : Option String := none
  tags : Option (List String) := none
deriving Repr, DecidableEq

/-- The keyword arguments passed to `register_task_definition` after the
    `{k: v for k, v in ... if v is not None}` filter: an `Option` field that is
    `none` stands for an omitted key.  `volumes`, `placementConstraints` and
    `inferenceAccelerators` are defaulted to `[]` before the filter and hence
    always present; `tags` is added only when non-empty. -/
structure RegisterArgs where
  family : String
  containerDefinitions : List Container
  cpu : Option String
  memory : Option String
  networkMode : Option String
  requiresCompatibilities : Option (List String)
  executionRoleArn : Option String
  taskRoleArn : Option String
  volumes : List String
  placementConstraints : List String
  proxyConfiguration : Option String
  inferenceAccelerators : List String
  ephemeralStorage : Option String
  tags : Option (List String)
deriving Repr, DecidableEq

/-- Result of `ecr.describe_images` for a repository: `.error` when the call
    (or anything else inside the per-container `try`) raised. -/
abbrev EcrLookup := String → Except Unit (List RepoImage)

/-- Per-container body of the versioned-tag loop (lines 69–100).  Returns
    `none` when the container is skipped by `continue` (line 82) and hence
    dropped from `new_container_defs`; otherwise the (possibly rewritten)
    container appended at line 100. -/
def processContainer (containerName : Option String) (lookup : EcrLookup)
    (c : Container) : Option Container :=
  let shouldUpdate :=
    if truthyS containerName then c.name = containerName.getD "" else true
  if shouldUpdate ∧ c.image ≠ "" ∧ strContains ".dkr.ecr." c.image then
    let (regionOpt, _, repo) := extract_ecr_info c.image
    if !truthyS regionOpt || !truthyS repo then
      none
    else
      match lookup (repo.getD "") with
      | .error _ => some c
      | .ok imgs =>
        if imgs.isEmpty then some c
        else if mixedKinds imgs then some c
        else
          match (sortDescStable imgs).head?.map (·.imageTags.getD []) with
          | some (t :: _) => some { c with image := baseOf c.image ++ ":" ++ t }
          | _ => some c
  else some c

/-- The deploy action the route takes after inspecting the task definition. -/
inductive DeployAction where
  | forceRedeploy
  | registerAndUpdate (args : RegisterArgs) (newTdArn : String)
deriving Repr, DecidableEq

/-- `deploy_new_image(data)`, from the point where the current service's task
    definition `td` is known.  `lookup` stands for the per-repository registry
    query; `newTdArn`/`serviceArn` are the collaborator's replies to
    `register_task_definition`/`update_service`. -/
def deploy_new_image (cluster service : String) (containerName : Option String)
    (td : TaskDef) (lookup : EcrLookup) (newTdArn serviceArn : String)
    (now : Nat) (h : List DRecord) : DeployAction × List DRecord :=
  let hasLatestTag := td.containerDefinitions.any fun c =>
    c.image ≠ "" && strContains ".dkr.ecr." c.image && tagOf c.image == "latest"
  if hasLatestTag then
    let data : DeployData :=
      { cluster := some cluster
        service := some service
        message := some "Force new deployment started - ECS will pull latest image and start new tasks"
        deployment_type := some "latest_tag_restart"
        service_arn := some serviceArn
        deployment_id := some (cluster ++ "-" ++ service ++ "-" ++ toString now) }
    (.forceRedeploy, (save_deployment_history now data h).2)
  else
    let newDefs := td.containerDefinitions.filterMap (processContainer containerName lookup)
    let args : RegisterArgs :=
      { family := td.family
        containerDefinitions := newDefs
        cpu := td.cpu
        memory := td.memory
        networkMode := td.networkMode
        requiresCompatibilities := td.requiresCompatibilities
        executionRoleArn := td.executionRoleArn
        taskRoleArn := td.taskRoleArn
        volumes := td.volumes.getD []
        placementConstraints := td.placementConstraints.getD []
        proxyConfiguration := td.proxyConfiguration
        inferenceAccelerators := td.inferenceAccelerators.getD []
        ephemeralStorage := td.ephemeralStorage
        tags := if (td.tags.getD []).isEmpty then none else some (td.tags.getD []) }
    let data : DeployData :=
      { cluster := some cluster
        service := some service
        message := some "Deployment started successfully"
        deployment_type := some "versioned_tag_update"
        new_task_definition := some newTdArn
        service_arn := some serviceArn
        deployment_id := some (cluster ++ "-" ++ service ++ "-" ++ toString now) }
    (.registerAndUpdate args newTdArn, (save_deployment_history now data h).2)

/-! ## Concrete fixtures used by witnesses and counterexamples -/

def emptyRec : DRecord :=
  { deployment_id := "d0", timestamp := 0, cluster := some "c", service := some "s"
    deployment_type := none, status := "IN_PROGRESS", message := none
    service_arn := none, new_task_definition := none, stopped_tasks := 0
    user := "unknown", last_checked_at := none, next_refresh_at := none
    status_error := none, running_count := none, desired_count := none
    pending_count := none, original_deployment_id := none }

def rCompleted : DRecord := { emptyRec with status := "COMPLETED" }

def rFailed : DRecord := { emptyRec with status := "FAILED" }

/-! ## C10 -/

/-- C10: the standalone deployment-status query
(`_get_deployment_status_impl`) checks its in-progress condition before its
zero-running condition: with `runningCount < desiredCount` or
`pendingCount > 0` it returns `IN_PROGRESS` even when `runningCount = 0`, and
returns `PENDING` only when `runningCount = 0` and the in-progress condition
fails — unlike the reconciler's count inference (`inferFromCounts`), which
returns `PENDING` whenever `runningCount = 0`; the two disagree at
`(0, 1, 0)`. -/
theorem impl_count_inference_precedence (running desired pending : Nat) :
    ((running < desired ∨ pending > 0) →
      statusFromCountsImpl running desired pending = "IN_PROGRESS") ∧
    (statusFromCountsImpl running desired pending = "PENDING" ↔
      running = 0 ∧ ¬(running < desired ∨ pending > 0)) ∧
    (running = 0 → inferFromCounts running desired pending = "PENDING") ∧
    statusFromCountsImpl 0 1 0 ≠ inferFromCounts 0 1 0 := by
  refine ⟨?_, ?_, ?_, by decide⟩
  · intro h
    unfold statusFromCountsImpl
    rw [if_pos]
    rcases h with h | h <;> simp [h]
  · unfold statusFromCountsImpl
    by_cases hc : (decide (running < desired) || decide (pending > 0)) = true
    · rw [if_pos hc]
      simp only [Bool.or_eq_true, decide_eq_true_eq] at hc
      constructor
      · intro h; exact absurd h (by decide)
      · rintro ⟨_, hn⟩; exact absurd hc hn
    · rw [if_neg hc]
      simp only [Bool.or_eq_true, decide_eq_true_eq, not_or] at hc
      by_cases h0 : running = 0
      · rw [if_pos h0]
        constructor
        · intro _
          exact ⟨h0, fun hor => by rcases hor with h | h; exact hc.1 h; exact hc.2 h⟩
        · intro _; rfl
      · rw [if_neg h0]
        constructor
        · intro h; exact absurd h (by decide)
        · rintro ⟨h, _⟩; exact absurd h h0
  · intro h0
    unfold inferFromCounts
    rw [if_pos h0]

/-- C10 witness. -/
theorem impl_count_inference_precedence_witness :
    statusFromCountsImpl 0 1 0 = "IN_PROGRESS" ∧
    statusFromCountsImpl 0 0 0 = "PENDING" ∧
    inferFromCounts 0 1 0 = "PENDING" ∧
    statusFromCountsImpl 0 1 0 ≠ inferFromCounts 0 1 0 := by
  obtain ⟨h1, h2, h3, h4⟩ := impl_count_inference_precedence 0 1 0
  obtain ⟨_, h2b, _, _⟩ := impl_count_inference_precedence 0 0 0
  exact ⟨h1 (Or.inl (by decide)), h2b.mpr (by simp), h3 rfl, h4⟩

/-! ## C3 -/

/-- C3: a `COMPLETED` record survives a failing reconciliation poll (the
service-describe call raising, or any other exception inside the poll): its
status stays `COMPLETED` — never downgraded — while `lastCheckedAt` is still
stamped. -/
theorem completed_sticky_on_poll_failure (now : Nat) (r : DRecord) (msg msg2 : String)
    (hc : truthyS r.cluster = true) (hs : truthyS r.service = true)
    (h : r.status = "COMPLETED") :
    ((update_deployment_status now r (.describeError msg)).status = "COMPLETED" ∧
     (update_deployment_status now r (.describeError msg)).last_checked_at = some now) ∧
    ((update_deployment_status now r (.catchAllError msg2)).status = "COMPLETED" ∧
     (update_deployment_status now r (.catchAllError msg2)).last_checked_at = some now) := by
  unfold update_deployment_status
  rw [hc, hs]
  simp [h]

/-- C3 witness. -/
theorem completed_sticky_on_poll_failure_witness :
    ((update_deployment_status 5 rCompleted (.describeError "boom")).status = "COMPLETED" ∧
     (update_deployment_status 5 rCompleted (.describeError "boom")).last_checked_at = some 5) ∧
    ((update_deployment_status 5 rCompleted (.catchAllError "crash")).status = "COMPLETED" ∧
     (update_deployment_status 5 rCompleted (.catchAllError "crash")).last_checked_at = some 5) :=
  completed_sticky_on_poll_failure 5 rCompleted "boom" "crash"
    (by decide) (by decide) (by decide)

/-! ## C5 -/

/-- C5 counterexample: a `FAILED` record polled while the service is missing.
The claim demands the status be set to `UNKNOWN` ("including when the current
status is FAILED"); the code's not-found branch protects `FAILED` as well and
leaves it unchanged. -/
theorem failed_not_downgraded_on_not_found :
    (update_deployment_status 1 rFailed .notFound).status = "FAILED" ∧
    ¬(update_deployment_status 1 rFailed .notFound).status = "UNKNOWN" := by
  decide

/-- C5 as amended: on a poll error (describe raising, or any later exception)
a non-`COMPLETED` status — `FAILED` included — becomes `UNKNOWN` with the
error stamped; on "service not found" both `COMPLETED` and `FAILED` are left
unchanged, any other status becomes `UNKNOWN`, and the "Service not found"
message is stamped regardless; in every such case `lastCheckedAt` is stamped
and another refresh is scheduled. -/
theorem poll_failure_transitions (now : Nat) (r : DRecord) (msg msg2 : String)
    (hc : truthyS r.cluster = true) (hs : truthyS r.service = true) :
    ((r.status ≠ "COMPLETED" →
        (update_deployment_status now r (.describeError msg)).status = "UNKNOWN" ∧
        (update_deployment_status now r (.describeError msg)).status_error = some msg) ∧
     (r.status = "COMPLETED" →
        (update_deployment_status now r (.describeError msg)).status = r.status)) ∧
    ((r.status ≠ "COMPLETED" →
        (update_deployment_status now r (.catchAllError msg2)).status = "UNKNOWN") ∧
     (r.status = "COMPLETED" →
        (update_deployment_status now r (.catchAllError msg2)).status = r.status) ∧
     (update_deployment_status now r (.catchAllError msg2)).status_error = some msg2) ∧
    ((r.status ≠ "COMPLETED" → r.status ≠ "FAILED" →
        (update_deployment_status now r .notFound).status = "UNKNOWN") ∧
     (r.status = "COMPLETED" ∨ r.status = "FAILED" →
        (update_deployment_status now r .notFound).status = r.status) ∧
     (update_deployment_status now r .notFound).status_error = some "Service not found") ∧
    (∀ poll,
      (poll = .describeError msg ∨ poll = .catchAllError msg2 ∨ poll = .notFound) →
      (update_deployment_status now r poll).last_checked_at = some now ∧
      (update_deployment_status now r poll).next_refresh_at = some now) := by
  unfold update_deployment_status
  rw [hc, hs]
  simp only [Bool.not_true, Bool.or_self, Bool.false_eq_true, if_false]
  refine ⟨⟨?_, ?_⟩, ⟨?_, ?_, ?_⟩, ⟨?_, ?_, ?_⟩, ?_⟩
  · intro h; simp [h]
  · intro h; simp [h]
  · intro h; simp [h]
  · intro h; simp [h]
  · by_cases h : r.status = "COMPLETED" <;> simp [h]
  · intro h h2; simp [h, h2]
  · rintro (h | h) <;> simp [h]
  · by_cases h2 : r.status = "COMPLETED" <;> by_cases h3 : r.status = "FAILED" <;>
      simp [h2, h3]
  · rintro poll (h | h | h) <;> subst h <;>
      constructor <;> (by_cases h : r.status = "COMPLETED" <;> simp [h])

/-- C5 amended witness. -/
theorem poll_failure_transitions_witness :
    (update_deployment_status 2 rFailed (.describeError "e")).status = "UNKNOWN" ∧
    (update_deployment_status 2 rCompleted .notFound).status = "COMPLETED" ∧
    (update_deployment_status 2 rFailed .notFound).status_error = some "Service not found" ∧
    (update_deployment_status 2 rFailed .notFound).last_checked_at = some 2 := by
  obtain ⟨⟨hf1, _⟩, _, ⟨_, _, _⟩, hstamp⟩ :=
    poll_failure_transitions 2 rFailed "e" "e2" (by decide) (by decide)
  obtain ⟨_, _, ⟨_, hc2, _⟩, _⟩ :=
    poll_failure_transitions 2 rCompleted "e" "e2" (by decide) (by decide)
  refine ⟨(hf1 (by decide)).1, ?_, ?_, ?_⟩
  · have := hc2 (Or.inl rfl); simpa using this
  · obtain ⟨_, _, ⟨_, _, herr⟩, _⟩ :=
      poll_failure_transitions 2 rFailed "e" "e2" (by decide) (by decide)
    exact herr
  · exact (hstamp .notFound (Or.inr (Or.inr rfl))).1


/-! ## C4 -/

theorem uds_ok_status (now : Nat) (r : DRecord) (svc : ServiceInfo)
    (hc : truthyS r.cluster = true) (hs : truthyS r.service = true) :
    (update_deployment_status now r (.ok svc)).status = okNewStatus svc := by
  unfold update_deployment_status
  rw [hc, hs]
  simp only [Bool.not_true, Bool.or_self, Bool.false_eq_true, if_false]
  split <;> rfl

theorem uds_ok_next (now : Nat) (r : DRecord) (svc : ServiceInfo)
    (hc : truthyS r.cluster = true) (hs : truthyS r.service = true) :
    (update_deployment_status now r (.ok svc)).next_refresh_at =
      if okNewStatus svc = "IN_PROGRESS" ∨ okNewStatus svc = "PENDING" ∨
          okNewStatus svc = "UNKNOWN"
      then some now else none := by
  unfold update_deployment_status
  rw [hc, hs]
  simp only [Bool.not_true, Bool.or_self, Bool.false_eq_true, if_false]
  split <;> simp_all

theorem inferFromCounts_mem (rc dc pc : Nat) :
    inferFromCounts rc dc pc = "PENDING" ∨ inferFromCounts rc dc pc = "IN_PROGRESS" ∨
    inferFromCounts rc dc pc = "COMPLETED" := by
  unfold inferFromCounts
  split_ifs <;> simp

theorem okNewStatus_mem (svc : ServiceInfo) :
    okNewStatus svc = "FAILED" ∨ okNewStatus svc = "COMPLETED" ∨
    okNewStatus svc = "IN_PROGRESS" ∨ okNewStatus svc = "PENDING" := by
  unfold okNewStatus
  cases hf : svc.deployments.find? fun d => d.status == some "PRIMARY" with
  | none =>
    dsimp only
    rcases inferFromCounts_mem svc.runningCount svc.desiredCount svc.pendingCount
      with h | h | h <;> simp [h]
  | some p =>
    dsimp only
    split_ifs with h1 h2 h3
    · simp
    · simp
    · simp
    · rcases inferFromCounts_mem svc.runningCount svc.desiredCount svc.pendingCount
        with h | h | h <;> simp [h]

/-- C4: on a successful reconciliation poll, an explicit rollout state of the
`PRIMARY` deployment maps `FAILED`→`FAILED`, `COMPLETED`→`COMPLETED`,
`IN_PROGRESS`/`PENDING`/`STARTED`→`IN_PROGRESS`; any other rollout state, or
the absence of a `PRIMARY` deployment object, defers to the count inference
(`runningCount = 0`→`PENDING`, otherwise `runningCount < desiredCount` or
`pendingCount > 0`→`IN_PROGRESS`, else `COMPLETED`); afterwards
`nextRefreshAt` is `none` exactly when the resulting status is terminal
(`COMPLETED` or `FAILED`). -/
theorem successful_poll_transitions (now : Nat) (r : DRecord) (svc : ServiceInfo)
    (hc : truthyS r.cluster = true) (hs : truthyS r.service = true) :
    (∀ p, (svc.deployments.find? fun d => d.status == some "PRIMARY") = some p →
      (p.rolloutState.getD "UNKNOWN" = "FAILED" →
        (update_deployment_status now r (.ok svc)).status = "FAILED") ∧
      (p.rolloutState.getD "UNKNOWN" = "COMPLETED" →
        (update_deployment_status now r (.ok svc)).status = "COMPLETED") ∧
      (p.rolloutState.getD "UNKNOWN" = "IN_PROGRESS" ∨
          p.rolloutState.getD "UNKNOWN" = "PENDING" ∨
          p.rolloutState.getD "UNKNOWN" = "STARTED" →
        (update_deployment_status now r (.ok svc)).status = "IN_PROGRESS") ∧
      (p.rolloutState.getD "UNKNOWN" ≠ "FAILED" →
        p.rolloutState.getD "UNKNOWN" ≠ "COMPLETED" →
        ¬(p.rolloutState.getD "UNKNOWN" = "IN_PROGRESS" ∨
            p.rolloutState.getD "UNKNOWN" = "PENDING" ∨
            p.rolloutState.getD "UNKNOWN" = "STARTED") →
        (update_deployment_status now r (.ok svc)).status =
          inferFromCounts svc.runningCount svc.desiredCount svc.pendingCount)) ∧
    ((svc.deployments.find? fun d => d.status == some "PRIMARY") = none →
      (update_deployment_status now r (.ok svc)).status =
        inferFromCounts svc.runningCount svc.desiredCount svc.pendingCount) ∧
    (∀ rc dc pc : Nat,
      (rc = 0 → inferFromCounts rc dc pc = "PENDING") ∧
      (rc ≠ 0 → rc < dc ∨ pc > 0 → inferFromCounts rc dc pc = "IN_PROGRESS") ∧
      (rc ≠ 0 → ¬(rc < dc ∨ pc > 0) → inferFromCounts rc dc pc = "COMPLETED")) ∧
    ((update_deployment_status now r (.ok svc)).next_refresh_at = none ↔
      (update_deployment_status now r (.ok svc)).status = "COMPLETED" ∨
      (update_deployment_status now r (.ok svc)).status = "FAILED") := by
  have hst := uds_ok_status now r svc hc hs
  have hnx := uds_ok_next now r svc hc hs
  refine ⟨?_, ?_, ?_, ?_⟩
  · intro p hp
    refine ⟨?_, ?_, ?_, ?_⟩
    · intro h; rw [hst]; unfold okNewStatus; rw [hp]; simp [h]
    · intro h; rw [hst]; unfold okNewStatus; rw [hp]; simp [h]
    · rintro (h | h | h) <;> (rw [hst]; unfold okNewStatus; rw [hp]; simp [h])
    · intro h1 h2 h3
      rw [hst]; unfold okNewStatus; rw [hp]
      simp only [if_neg h1, if_neg h2, if_neg h3]
  · intro hp; rw [hst]; unfold okNewStatus; rw [hp]
  · intro rc dc pc
    refine ⟨?_, ?_, ?_⟩
    · intro h; unfold inferFromCounts; rw [if_pos h]
    · intro h hlt
      unfold inferFromCounts
      rw [if_neg h, if_pos]
      rcases hlt with h2 | h2 <;> simp [h2]
    · intro h hn
      rw [not_or] at hn
      unfold inferFromCounts
      rw [if_neg h, if_neg]
      simp [hn.1, hn.2]
  · rw [hnx, hst]
    rcases okNewStatus_mem svc with h | h | h | h <;> rw [h] <;> simp

def svcPrimaryFailed : ServiceInfo :=
  { desiredCount := 2, runningCount := 1, pendingCount := 0
    deployments := [⟨some "PRIMARY", some "FAILED"⟩] }

/-- C4 witness. -/
theorem successful_poll_transitions_witness :
    (update_deployment_status 3 emptyRec (.ok svcPrimaryFailed)).status = "FAILED" ∧
    ((update_deployment_status 3 emptyRec (.ok svcPrimaryFailed)).next_refresh_at = none ↔
      (update_deployment_status 3 emptyRec (.ok svcPrimaryFailed)).status = "COMPLETED" ∨
      (update_deployment_status 3 emptyRec (.ok svcPrimaryFailed)).status = "FAILED") := by
  obtain ⟨hp, _, _, hterm⟩ :=
    successful_poll_transitions 3 emptyRec svcPrimaryFailed (by decide) (by decide)
  exact ⟨((hp ⟨some "PRIMARY", some "FAILED"⟩ (by decide)).1) (by decide), hterm⟩

/-! ## C6 -/

theorem save_def (now : Nat) (d : DeployData) (h : List DRecord) :
    save_deployment_history now d h =
      ((mkHistoryEntry now d).deployment_id,
        if (mkHistoryEntry now d :: h).length > 100
        then (mkHistoryEntry now d :: h).dropLast
        else mkHistoryEntry now d :: h) := rfl

theorem save_head (now : Nat) (d : DeployData) (h : List DRecord) :
    ∃ t, (save_deployment_history now d h).2 = mkHistoryEntry now d :: t := by
  simp only [save_def]
  by_cases hl : (mkHistoryEntry now d :: h).length > 100
  · cases h with
    | nil => simp at hl
    | cons x xs =>
      exact ⟨(x :: xs).dropLast, by rw [if_pos hl, List.dropLast_cons₂]⟩
  · exact ⟨h, by rw [if_neg hl]⟩

theorem save_length (now : Nat) (d : DeployData) (h : List DRecord)
    (hle : h.length ≤ 100) :
    (save_deployment_history now d h).2.length = min (h.length + 1) 100 := by
  simp only [save_def]
  by_cases hl : (mkHistoryEntry now d :: h).length > 100
  · rw [if_pos hl, List.length_dropLast]
    simp only [List.length_cons] at hl ⊢
    omega
  · rw [if_neg hl]
    simp only [List.length_cons] at hl ⊢
    omega

theorem recordAll_length_aux (now : Nat) (ds : List DeployData) :
    ∀ h : List DRecord, h.length ≤ 100 →
      (ds.foldl (fun acc d => (save_deployment_history now d acc).2) h).length =
        min (h.length + ds.length) 100 := by
  induction ds with
  | nil => intro h hle; simp; omega
  | cons d ds ih =>
    intro h hle
    rw [List.foldl_cons]
    have hstep := save_length now d h hle
    have hle2 : (save_deployment_history now d h).2.length ≤ 100 := by omega
    rw [ih _ hle2, hstep]
    simp only [List.length_cons]
    omega

/-- C6: the ledger's record operation stores the new entry with status
`IN_PROGRESS` and prepends it, so `record` followed by `find(id)` yields an
`IN_PROGRESS` record; the ledger's size never exceeds 100 — a record inserted
into a full ledger of 100 evicts exactly the tail entry (the earliest
inserted, since every insertion prepends) — and after any sequence of inserts
into an empty ledger the size is `min inserts 100`.  `record` is a total
function: it has no failure mode. -/
theorem ledger_record_behaviour (now : Nat) (d : DeployData) (h : List DRecord) :
    (∃ r, findDeployment (save_deployment_history now d h).1
        (save_deployment_history now d h).2 = some r ∧ r.status = "IN_PROGRESS") ∧
    (h.length ≤ 100 → (save_deployment_history now d h).2.length ≤ 100) ∧
    (h.length = 100 →
      (save_deployment_history now d h).2 = mkHistoryEntry now d :: h.dropLast) ∧
    (∀ ds : List DeployData, (recordAll now ds).length = min ds.length 100) := by
  refine ⟨?_, ?_, ?_, ?_⟩
  · obtain ⟨t, ht⟩ := save_head now d h
    refine ⟨mkHistoryEntry now d, ?_, rfl⟩
    have h1 : (save_deployment_history now d h).1 = (mkHistoryEntry now d).deployment_id := rfl
    rw [h1, ht]
    unfold findDeployment
    rw [List.find?_cons_of_pos]
    simp
  · intro hle
    rw [save_length now d h hle]
    omega
  · intro h100
    simp only [save_def]
    rw [if_pos (by simp [h100])]
    cases h with
    | nil => simp at h100
    | cons x xs => rw [List.dropLast_cons₂]
  · intro ds
    unfold recordAll
    rw [recordAll_length_aux now ds [] (by simp)]
    simp

/-- C6 witness. -/
theorem ledger_record_behaviour_witness :
    (∃ r, findDeployment (save_deployment_history 0 {} []).1
        (save_deployment_history 0 {} []).2 = some r ∧ r.status = "IN_PROGRESS") ∧
    (save_deployment_history 0 {} []).2.length ≤ 100 ∧
    (recordAll 0 (List.replicate 101 {})).length = 100 := by
  obtain ⟨ha, hb, _, hd⟩ := ledger_record_behaviour 0 {} []
  refine ⟨ha, hb (by simp), ?_⟩
  have := hd (List.replicate 101 {})
  simpa using this


/-! ## Resolver claims: shared lemmas and fixtures -/

theorem unified_eq_body (uri : String) (images : List RepoImage) (rtd : Option String)
    (hu : uri ≠ "") (hne : images ≠ []) :
    unified_image_comparison uri images rtd = compareBody uri (sortCandidates images) rtd := by
  unfold unified_image_comparison
  rw [if_neg]
  simp [hu, hne]

theorem truthyS_iff (o : Option String) : truthyS o = true ↔ ∃ s, o = some s ∧ s ≠ "" := by
  cases o <;> simp [truthyS]

theorem colon_latest (b : String) : b ++ ":latest" = b ++ ":" ++ "latest" := by
  apply String.ext
  rw [String.data_append, refUri_data]

def imgV1 : RepoImage := ⟨some "d1", some ["v1"], some (.pint 1)⟩

def imgV2 : RepoImage := ⟨some "d2", some ["v2"], some (.pint 2)⟩

def imgLatest : RepoImage := ⟨some "dA", some ["latest"], some (.pint 2)⟩

def imgOld : RepoImage := ⟨some "dB", some ["old"], some (.pint 1)⟩

/-! ## C1 -/

/-- C1: for a current reference `base:latest` (well-formed: no other colons)
and a non-empty candidate list whose defensive descending sort starts with
the most-recently-pushed candidate `c`: with an observed running digest `d`
the result is `hasUpdate = true` iff `c`'s digest is present (non-empty) and
differs from `d`; with no observed digest the candidate carrying tag
`"latest"` is compared against `c`, and a missing digest on either side gives
`hasUpdate = false`; in every floating-tag case `latestReference` is the
current reference (tag `latest`). -/
theorem resolver_latest_tag (base : String) (images : List RepoImage)
    (c : RepoImage) (rest : List RepoImage)
    (hb : ':' ∉ base.data) (hne : images ≠ [])
    (hsort : sortCandidates images = c :: rest) :
    (∀ rtd, (unified_image_comparison (base ++ ":" ++ "latest") images rtd).2 =
      base ++ ":" ++ "latest") ∧
    (∀ d, d ≠ "" →
      ((unified_image_comparison (base ++ ":" ++ "latest") images (some d)).1 = true ↔
        ∃ ld, c.imageDigest = some ld ∧ ld ≠ "" ∧ d ≠ ld)) ∧
    ((unified_image_comparison (base ++ ":" ++ "latest") images none).1 = true ↔
      ∃ cd ld,
        (((c :: rest).find? fun img => (img.imageTags.getD []).contains "latest").bind
          fun img => img.imageDigest) = some cd ∧ cd ≠ "" ∧
        c.imageDigest = some ld ∧ ld ≠ "" ∧ cd ≠ ld) := by
  have hu : (base ++ ":" ++ "latest") ≠ "" := refUri_ne_empty base "latest"
  have htg : tagOf (base ++ ":" ++ "latest") = "latest" :=
    tagOf_ref base "latest" hb (by decide)
  have hbs : baseOf (base ++ ":" ++ "latest") = base := baseOf_ref base "latest" hb
  have hbody : ∀ rtd, unified_image_comparison (base ++ ":" ++ "latest") images rtd =
      compareBody (base ++ ":" ++ "latest") (c :: rest) rtd := by
    intro rtd
    rw [unified_eq_body _ _ _ hu hne, hsort]
  refine ⟨?_, ?_, ?_⟩
  · intro rtd
    rw [hbody rtd]
    unfold compareBody
    simp only [htg, hbs]
    rw [if_pos trivial]
    split
    · simp [colon_latest]
    · split <;> simp [colon_latest]
  · intro d hd
    rw [hbody (some d)]
    unfold compareBody
    simp only [htg, hbs]
    rw [if_pos trivial]
    have htr : truthyS (some d) = true := by simp [truthyS, hd]
    rw [htr]
    simp only [if_true, List.head?_cons, Option.some_bind]
    cases hcd : c.imageDigest with
    | none => simp
    | some ld =>
      by_cases hld : ld = ""
      · simp [hld]
      · simp [hld, hd]
  · rw [hbody none]
    unfold compareBody
    simp only [htg, hbs]
    rw [if_pos trivial]
    have htr : truthyS (none : Option String) = false := rfl
    rw [htr]
    simp only [Bool.false_eq_true, if_false, List.head?_cons, Option.some_bind]
    cases hcur : (((c :: rest).find? fun img => (img.imageTags.getD []).contains "latest").bind
        fun img => img.imageDigest) with
    | none => simp [truthyS]
    | some cd =>
      by_cases hco : (truthyS (some cd) && truthyS c.imageDigest) = true
      · rw [if_pos hco]
        simp only [Bool.and_eq_true] at hco
        obtain ⟨hcd2, hld2⟩ := hco
        rw [truthyS_iff] at hld2
        obtain ⟨ld, hld, hldne⟩ := hld2
        have hcdne : cd ≠ "" := by simpa [truthyS] using hcd2
        simp only [hld]
        simp [hcdne, hldne]
      · rw [if_neg hco]
        refine iff_of_false (by simp) ?_
        rintro ⟨cd1, ld, hcd1, hne1, hld, hne2, _⟩
        apply hco
        obtain rfl : cd1 = cd := by injection hcd1 with h; exact h.symm
        simp [truthyS, hld, hne1, hne2]

/-- C1 witness. -/
theorem resolver_latest_tag_witness :
    (unified_image_comparison ("repo" ++ ":" ++ "latest") [imgOld, imgLatest]
      (some "dX")).1 = true ∧
    (unified_image_comparison ("repo" ++ ":" ++ "latest") [imgOld, imgLatest]
      (some "dX")).2 = "repo" ++ ":" ++ "latest" := by
  obtain ⟨hsnd, hobs, _⟩ :=
    resolver_latest_tag "repo" [imgOld, imgLatest] imgLatest [imgOld]
      (by decide) (by decide) (by decide)
  exact ⟨(hobs "dX" (by decide)).mpr ⟨"dA", rfl, by decide, by decide⟩, hsnd (some "dX")⟩

/-! ## C2 -/

/-- C2: for a current reference `base:tag` with a versioned (non-`latest`)
tag and a non-empty candidate list whose defensive descending sort starts
with the most-recently-pushed candidate `c`: when `c`'s tag set starts with
`t`, the result is `hasUpdate = (tag ≠ t)` with `latestReference` the current
reference rewritten to tag `t`; when `c` has no tags, the result is
`(false, current)`. -/
theorem resolver_versioned_tag (base tag : String) (images : List RepoImage)
    (c : RepoImage) (rest : List RepoImage) (rtd : Option String)
    (hb : ':' ∉ base.data) (ht : ':' ∉ tag.data) (htag : tag ≠ "latest")
    (hne : images ≠ []) (hsort : sortCandidates images = c :: rest) :
    (∀ t ts, c.imageTags.getD [] = t :: ts →
      ((unified_image_comparison (base ++ ":" ++ tag) images rtd).1 = true ↔ tag ≠ t) ∧
      (unified_image_comparison (base ++ ":" ++ tag) images rtd).2 = base ++ ":" ++ t) ∧
    (c.imageTags.getD [] = [] →
      unified_image_comparison (base ++ ":" ++ tag) images rtd =
        (false, base ++ ":" ++ tag)) := by
  have hu : (base ++ ":" ++ tag) ≠ "" := refUri_ne_empty base tag
  have htg : tagOf (base ++ ":" ++ tag) = tag := tagOf_ref base tag hb ht
  have hbs : baseOf (base ++ ":" ++ tag) = base := baseOf_ref base tag hb
  have hbody : unified_image_comparison (base ++ ":" ++ tag) images rtd =
      compareBody (base ++ ":" ++ tag) (c :: rest) rtd := by
    rw [unified_eq_body _ _ _ hu hne, hsort]
  constructor
  · intro t ts htags
    rw [hbody]
    unfold compareBody
    simp only [htg, hbs, if_neg htag, List.head?_cons]
    rw [htags]
    constructor
    · simp only [decide_eq_true_eq]
      constructor
      · intro h hteq
        exact h (by rw [hteq])
      · intro h heq
        exact h ((refUri_inj base tag t).mp heq)
    · rfl
  · intro htags
    rw [hbody]
    unfold compareBody
    simp only [htg, hbs, if_neg htag, List.head?_cons]
    rw [htags]

/-- C2 witness. -/
theorem resolver_versioned_tag_witness :
    (unified_image_comparison ("repo" ++ ":" ++ "v1") [imgV1, imgV2] none).1 = true ∧
    (unified_image_comparison ("repo" ++ ":" ++ "v1") [imgV1, imgV2] none).2 =
      "repo" ++ ":" ++ "v2" := by
  obtain ⟨harm, _⟩ :=
    resolver_versioned_tag "repo" "v1" [imgV1, imgV2] imgV2 [imgV1] none
      (by decide) (by decide) (by decide) (by decide) (by decide)
  obtain ⟨hiff, hsnd⟩ := harm "v2" [] rfl
  exact ⟨hiff.mpr (by decide), hsnd⟩

/-! ## C7 -/

def mixedImgs : List RepoImage :=
  [⟨some "d2", some ["v2"], some (.pdate 1)⟩, ⟨some "d1", some ["v1"], some (.pint 5)⟩]

/-- C7 counterexample: a candidate list with mixed `imagePushedAt` runtime
kinds makes the Python `sorted` call raise; the inner handler swallows the
exception and the comparison proceeds on the original order, producing
`(true, "repo:v2")` — not the safe default `(false, "repo:v1")` the claim
demands for an exception arising during sorting. -/
theorem resolver_sort_exception_not_safe_default :
    pySortRaises mixedImgs = true ∧
    unified_image_comparison "repo:v1" mixedImgs none = (true, "repo:v2") ∧
    ((true, ("repo:v2" : String)) ≠ (false, ("repo:v1" : String))) := by
  refine ⟨rfl, ?_, by decide⟩
  decide

/-- C7 as amended: the resolver is total (never propagates failure to the
caller); an empty candidate list yields the safe default `(false, current)`;
an exception raised by the defensive sort is caught by its own inner handler
and resolution proceeds on the ORIGINAL candidate order — only exceptions in
the comparison steps after the sort are converted to the safe default. -/
theorem resolver_safe_defaults (uri : String) (images : List RepoImage)
    (rtd : Option String) :
    unified_image_comparison uri [] rtd = (false, uri) ∧
    (pySortRaises images = true → uri ≠ "" → images ≠ [] →
      unified_image_comparison uri images rtd = compareBody uri images rtd) := by
  constructor
  · unfold unified_image_comparison
    simp
  · intro hmix hu hne
    rw [unified_eq_body uri images rtd hu hne]
    unfold sortCandidates
    rw [if_pos (show mixedKinds images = true from hmix)]

/-- C7 amended witness. -/
theorem resolver_safe_defaults_witness :
    unified_image_comparison "repo:v1" [] none = (false, "repo:v1") ∧
    unified_image_comparison "repo:v1" mixedImgs none =
      compareBody "repo:v1" mixedImgs none := by
  obtain ⟨h1, h2⟩ := resolver_safe_defaults "repo:v1" mixedImgs none
  exact ⟨h1, h2 rfl (by decide) (by decide)⟩


/-! ## C8 -/

def rbTarget : DRecord := { emptyRec with deployment_id := "dep-1" }

def rbHistory : List DRecord := [rbTarget]

/-- C8: evaluation of the rollback use case at concrete collaborator replies.
With a single active revision it fails with the "no previous version" error
and the ledger is untouched; with three active revisions (most recent first)
it redeploys onto the second most recent and writes exactly one record — but
the stored record's `original_deployment_id` is `none`:
`save_deployment_history` copies a fixed key set and silently drops the
`original_deployment_id` the rollback route supplies, so the id being rolled
back from survives only in the HTTP response, contradicting the claim (and
the spec's `DeploymentRecord` data model). -/
theorem rollback_ledger_not_stamped :
    rollback_deployment "dep-1" rbHistory true (some "fam") ["td:5"] "arn" 9 =
      (.error .noPreviousVersion, rbHistory) ∧
    (rollback_deployment "dep-1" rbHistory true (some "fam")
        ["td:5", "td:4", "td:3"] "arn" 9).1 =
      .ok { deployment_id := "rollback-c-s-9", service_arn := "arn",
            rollback_to := "td:4", original_deployment_id := "dep-1" } ∧
    (rollback_deployment "dep-1" rbHistory true (some "fam")
        ["td:5", "td:4", "td:3"] "arn" 9).2.length = rbHistory.length + 1 ∧
    ((findDeployment "rollback-c-s-9"
        (rollback_deployment "dep-1" rbHistory true (some "fam")
          ["td:5", "td:4", "td:3"] "arn" 9).2).map
      fun r => r.original_deployment_id) = some none := by
  refine ⟨rfl, rfl, rfl, rfl⟩

/-! ## C9 -/

def tdLatest : TaskDef :=
  { family := "fam"
    containerDefinitions := [⟨"a", "123.dkr.ecr.us-east-1.amazonaws.com/app:latest", "restA"⟩] }

def tdMixed : TaskDef :=
  { family := "fam"
    containerDefinitions :=
      [ ⟨"a", "123.dkr.ecr.us-east-1.amazonaws.com/app:v1", "restA"⟩
      , ⟨"b", "1.dkr.ecr.r.amazonaws.com.cn/repo:v1", "restB"⟩ ] }

def lkV2 : EcrLookup := fun _ => .ok [imgV1, imgV2]

/-- C9: evaluation of deploy-new-image at concrete inputs.  A managed image on
the floating tag forces a redeployment with one `latest_tag_restart` ledger
record and no registration.  On the versioned branch the eligible container
`a` has its image rewritten to the newest tag `v2` and one
`versioned_tag_update` record is written — but container `b`, whose image
contains the managed-registry marker yet fails to parse (no `.amazonaws.com/`
segment), is dropped from the registered revision entirely: the `continue` in
the loop skips the `new_container_defs.append` (line 82 vs line 100 of
`routes/deployments.py`), contradicting the claim that only image fields are
rewritten and everything else is carried over. -/
theorem deploy_new_image_container_dropped :
    (deploy_new_image "c" "s" none tdLatest lkV2 "newArn" "svcArn" 3 []).1 =
      .forceRedeploy ∧
    ((deploy_new_image "c" "s" none tdLatest lkV2 "newArn" "svcArn" 3 []).2.map
        fun r => (r.deployment_type, r.status)) =
      [(some "latest_tag_restart", "IN_PROGRESS")] ∧
    (deploy_new_image "c" "s" none tdMixed lkV2 "newArn" "svcArn" 3 []).1 =
      .registerAndUpdate
        { family := "fam"
          containerDefinitions :=
            [⟨"a", "123.dkr.ecr.us-east-1.amazonaws.com/app:v2", "restA"⟩]
          cpu := none, memory := none, networkMode := none
          requiresCompatibilities := none, executionRoleArn := none
          taskRoleArn := none, volumes := [], placementConstraints := []
          proxyConfiguration := none, inferenceAccelerators := []
          ephemeralStorage := none, tags := none }
        "newArn" ∧
    tdMixed.containerDefinitions.length = 2 ∧
    ((deploy_new_image "c" "s" none tdMixed lkV2 "newArn" "svcArn" 3 []).2.map
        fun r => (r.deployment_type, r.new_task_definition)) =
      [(some "versioned_tag_update", some "newArn")] := by
  refine ⟨rfl, rfl, rfl, rfl, rfl⟩

end ECSCC
